import Mathlib

/-!
Verification of the SensorDashboard repository (src/app/page.tsx and the
spec's Warning Tracker). The file shallowly embeds the dashboard's state
logic: the per-sensor bounded history store (both fetchData variants), the
timestamp normalization at ingest, the poll/error state machine, the
sensor-id sort used by the renderer, and — modelled from the spec where the
richer variant's source is absent — the warning evaluation, sweep, and the
four-band temperature classification.
-/

namespace SensorDashboard

/-- One sensor observation, mirroring `interface SensorReading` in
src/app/page.tsx. JS numbers are modelled as rationals; the timestamp is the
raw string as received (normalized on store). -/
structure SensorReading where
  sensor_id : String
  timestamp : String
  temperature : Rat
  co2_level : Rat
  humidity : Rat
  noise_level : Rat
  light_intensity : Rat
  air_quality_index : Rat
deriving Repr, DecidableEq

/-- JS `Array.prototype.slice(-n)`: the last `n` elements of a list (all of them
when the list is shorter). -/
def sliceLast (n : Nat) (l : List α) : List α := l.drop (l.length - n)

/-- Modelled from the spec: timestamps are "ISO-8601 normalized on ingest"
via `new Date(reading.timestamp).toISOString()`, whose implementation (the
JS `Date` runtime) is outside the repository. Modelled on UTC ISO-8601
inputs: a timestamp lacking a fractional-seconds part gains an explicit
".000" milliseconds field; a string already carrying a fractional part is
left unchanged; other shapes are left unchanged. -/
def isoNormalize (s : String) : String :=
  if s.toList.contains '.' then s
  else if s.toList.getLast? = some 'Z' then
    (s.toList.dropLast ++ ['.', '0', '0', '0', 'Z']).asString
  else s

/-- The reading as stored: its timestamp replaced by the normalized form,
mirroring `{ ...reading, timestamp: new Date(reading.timestamp).toISOString() }`. -/
def normStamp (r : SensorReading) : SensorReading :=
  { r with timestamp := isoNormalize r.timestamp }

/-- The `sensorData` state: `Record<string, SensorReading[]>`, modelled as an
association list in key-insertion order. -/
abbrev SensorData := List (String × List SensorReading)

/-- Reading `sensorData[id]` — the stored sequence for a sensor id, when the key is
present (`undefined`, i.e. `none`, when absent). -/
def lookupSensor : SensorData → String → Option (List SensorReading)
  | [], _ => none
  | p :: t, id => if p.fst == id then some p.snd else lookupSensor t id

/-- Assignment `sensorData[id] = rs` — update the value at a present key in place,
otherwise add the key at the end (JS object insertion order). -/
def setSensor : SensorData → String → List SensorReading → SensorData
  | [], id, rs => [(id, rs)]
  | p :: t, id, rs => if p.fst == id then (id, rs) :: t else p :: setSensor t id rs

/-- One iteration of the `data.forEach(reading => ...)` body of the first
fetchData variant (src/app/page.tsx lines 152-165): look up (or create) the
sequence, skip when the incoming raw timestamp equals the last stored entry's
timestamp, otherwise append the normalized reading and truncate to the last
100 entries. -/
def appendReading (d : SensorData) (r : SensorReading) : SensorData :=
  match ((lookupSensor d r.sensor_id).getD []).getLast? with
  | none =>
      setSensor d r.sensor_id
        (sliceLast 100 ((lookupSensor d r.sensor_id).getD [] ++ [normStamp r]))
  | some last =>
      if last.timestamp = r.timestamp then d
      else
        setSensor d r.sensor_id
          (sliceLast 100 ((lookupSensor d r.sensor_id).getD [] ++ [normStamp r]))

/-- The whole `setSensorData` updater of the first variant: fold the forEach
body over the decoded batch. -/
def appendBatch (d : SensorData) (batch : List SensorReading) : SensorData :=
  batch.foldl appendReading d

/-- One iteration of the forEach body of the second fetchData variant
(src/app/page.tsx lines 419-434): no timestamp deduplication, always append
the normalized reading and truncate to the last 100 entries. -/
def appendReadingV2 (d : SensorData) (r : SensorReading) : SensorData :=
  setSensor d r.sensor_id
    (sliceLast 100 ((lookupSensor d r.sensor_id).getD [] ++ [normStamp r]))

/-- The `setSensorData` updater of the second variant. -/
def appendBatchV2 (d : SensorData) (batch : List SensorReading) : SensorData :=
  batch.foldl appendReadingV2 d

/- ### Basic lemmas about the history store -/

theorem sliceLast_length_le (n : Nat) (l : List α) : (sliceLast n l).length ≤ n := by
  simp only [sliceLast, List.length_drop]
  omega

theorem sliceLast_append_ne_nil (n : Nat) (hn : 0 < n) (l : List α) (x : α) :
    sliceLast n (l ++ [x]) ≠ [] := by
  have hlen : (sliceLast n (l ++ [x])).length ≠ 0 := by
    simp only [sliceLast, List.length_drop, List.length_append, List.length_cons,
      List.length_nil]
    omega
  intro h
  exact hlen (by simp [h])

theorem lookup_set_self (id : String) (rs : List SensorReading) (d : SensorData) :
    lookupSensor (setSensor d id rs) id = some rs := by
  induction d with
  | nil => simp [setSensor, lookupSensor]
  | cons p t ih =>
      by_cases hp : (p.fst == id) = true
      · simp [setSensor, hp, lookupSensor]
      · simp only [setSensor, hp, Bool.false_eq_true, ite_false, lookupSensor]
        exact ih

theorem lookup_set_ne (id id' : String) (rs : List SensorReading) (d : SensorData)
    (h : id' ≠ id) : lookupSensor (setSensor d id rs) id' = lookupSensor d id' := by
  have hne : (id == id') = false := beq_eq_false_iff_ne.mpr fun e => h e.symm
  induction d with
  | nil =>
      simp [setSensor, lookupSensor, hne]
  | cons p t ih =>
      by_cases hp : (p.fst == id) = true
      · have hpid : p.fst = id := by simpa using hp
        have hne' : (p.fst == id') = false := by rw [hpid]; exact hne
        simp [setSensor, hp, lookupSensor, hne, hne']
      · simp only [setSensor, hp, Bool.false_eq_true, ite_false, lookupSensor]
        by_cases hq : (p.fst == id') = true
        · simp [hq]
        · simp only [hq, Bool.false_eq_true, ite_false]
          exact ih

/-- Every step of the forEach body either leaves the state unchanged (the
duplicate-skip branch) or stores the truncated extended sequence at the
reading's own sensor id. -/
theorem appendReading_cases (d : SensorData) (r : SensorReading) :
    appendReading d r = d ∨
    appendReading d r =
      setSensor d r.sensor_id
        (sliceLast 100 ((lookupSensor d r.sensor_id).getD [] ++ [normStamp r])) := by
  unfold appendReading
  split
  · exact Or.inr rfl
  · split
    · exact Or.inl rfl
    · exact Or.inr rfl

/- ### Per-value invariants of the history store -/

/-- Predicate `P` holds of every stored per-sensor sequence. -/
def HistInv (P : List SensorReading → Prop) (d : SensorData) : Prop :=
  ∀ id rs, lookupSensor d id = some rs → P rs

theorem histInv_nil (P : List SensorReading → Prop) : HistInv P [] := by
  intro id rs h
  simp [lookupSensor] at h

theorem histInv_set {P : List SensorReading → Prop} {d : SensorData} {id : String}
    {rs : List SensorReading} (hP : P rs) (h : HistInv P d) :
    HistInv P (setSensor d id rs) := by
  intro id' rs' hl
  by_cases he : id' = id
  · subst he
    rw [lookup_set_self] at hl
    cases hl
    exact hP
  · rw [lookup_set_ne _ _ _ _ he] at hl
    exact h id' rs' hl

theorem histInv_appendReading {P : List SensorReading → Prop}
    (hP : ∀ (l : List SensorReading) (x : SensorReading), P (sliceLast 100 (l ++ [x])))
    {d : SensorData} (h : HistInv P d) (r : SensorReading) :
    HistInv P (appendReading d r) := by
  rcases appendReading_cases d r with hc | hc
  · rw [hc]; exact h
  · rw [hc]; exact histInv_set (hP _ _) h

theorem histInv_appendBatch {P : List SensorReading → Prop}
    (hP : ∀ (l : List SensorReading) (x : SensorReading), P (sliceLast 100 (l ++ [x])))
    (batch : List SensorReading) :
    ∀ {d : SensorData}, HistInv P d → HistInv P (appendBatch d batch) := by
  induction batch with
  | nil => intro d h; exact h
  | cons r rest ih =>
      intro d h
      exact ih (histInv_appendReading hP h r)

theorem histInv_appendReadingV2 {P : List SensorReading → Prop}
    (hP : ∀ (l : List SensorReading) (x : SensorReading), P (sliceLast 100 (l ++ [x])))
    {d : SensorData} (h : HistInv P d) (r : SensorReading) :
    HistInv P (appendReadingV2 d r) :=
  histInv_set (hP _ _) h

theorem histInv_appendBatchV2 {P : List SensorReading → Prop}
    (hP : ∀ (l : List SensorReading) (x : SensorReading), P (sliceLast 100 (l ++ [x])))
    (batch : List SensorReading) :
    ∀ {d : SensorData}, HistInv P d → HistInv P (appendBatchV2 d batch) := by
  induction batch with
  | nil => intro d h; exact h
  | cons r rest ih =>
      intro d h
      exact ih (histInv_appendReadingV2 hP h r)

theorem histInv_foldBatches (P : List SensorReading → Prop)
    (hP : ∀ (l : List SensorReading) (x : SensorReading), P (sliceLast 100 (l ++ [x])))
    (batches : List (List SensorReading)) :
    HistInv P (batches.foldl appendBatch []) := by
  suffices h : ∀ {d : SensorData}, HistInv P d → HistInv P (batches.foldl appendBatch d) from
    h (histInv_nil P)
  induction batches with
  | nil => intro d h; exact h
  | cons b rest ih =>
      intro d h
      exact ih (histInv_appendBatch hP b h)

theorem histInv_foldBatchesV2 (P : List SensorReading → Prop)
    (hP : ∀ (l : List SensorReading) (x : SensorReading), P (sliceLast 100 (l ++ [x])))
    (batches : List (List SensorReading)) :
    HistInv P (batches.foldl appendBatchV2 []) := by
  suffices h : ∀ {d : SensorData}, HistInv P d → HistInv P (batches.foldl appendBatchV2 d) from
    h (histInv_nil P)
  induction batches with
  | nil => intro d h; exact h
  | cons b rest ih =>
      intro d h
      exact ih (histInv_appendBatchV2 hP b h)

/- ### Concrete fixtures for witnesses and examples -/

/-- Test fixture: a reading with the given id, timestamp, temperature and co2
level (the remaining metrics held at nominal values). -/
def mkReading (id ts : String) (temp co2 : Rat) : SensorReading :=
  ⟨id, ts, temp, co2, 50, 40, 300, 5⟩

/-- A canonical ISO timestamp (already carrying milliseconds). -/
def tsA : String := "2025-01-01T00:00:00.000Z"

/-- A second, distinct canonical ISO timestamp. -/
def tsB : String := "2025-01-01T00:00:05.000Z"

/-- The same instant as `tsA` written without a milliseconds field. -/
def tsARaw : String := "2025-01-01T00:00:00Z"

def sampleReading : SensorReading := mkReading "s1" tsA 20 400

def sampleReadingB : SensorReading := mkReading "s1" tsB 21 400

/- ### Claim theorems: history store -/

/-- Claim C1: for every sensor, after any sequence of append operations (poll
cycles, in either fetchData variant) starting from the empty state, the stored
history sequence has length at most 100; each append truncates to the last 100
entries, and on a full sequence the oldest (head) entry is the one evicted. -/
theorem history_length_capped :
    (∀ (batches : List (List SensorReading)) (id : String) (rs : List SensorReading),
        lookupSensor (batches.foldl appendBatch []) id = some rs → rs.length ≤ 100)
    ∧ (∀ (batches : List (List SensorReading)) (id : String) (rs : List SensorReading),
        lookupSensor (batches.foldl appendBatchV2 []) id = some rs → rs.length ≤ 100)
    ∧ (∀ (l : List SensorReading) (x : SensorReading), l.length = 100 →
        sliceLast 100 (l ++ [x]) = l.tail ++ [x]) := by
  refine ⟨?_, ?_, ?_⟩
  · intro batches id rs h
    exact histInv_foldBatches (fun l => l.length ≤ 100)
      (fun l x => sliceLast_length_le 100 (l ++ [x])) batches id rs h
  · intro batches id rs h
    exact histInv_foldBatchesV2 (fun l => l.length ≤ 100)
      (fun l x => sliceLast_length_le 100 (l ++ [x])) batches id rs h
  · intro l x hl
    have h1 : (l ++ [x]).length - 100 = 1 := by
      simp [hl]
    show (l ++ [x]).drop ((l ++ [x]).length - 100) = l.tail ++ [x]
    rw [h1, List.drop_append_of_le_length (by omega), List.drop_one]

/-- Witness for C1 at a concrete run: one batch of one reading, and a
100-element full sequence. -/
theorem history_length_capped_witness :
    [normStamp sampleReading].length ≤ 100
    ∧ [normStamp sampleReading].length ≤ 100
    ∧ sliceLast 100 (List.replicate 100 sampleReading ++ [sampleReadingB]) =
        (List.replicate 100 sampleReading).tail ++ [sampleReadingB] :=
  ⟨history_length_capped.1 [[sampleReading]] "s1" [normStamp sampleReading] (by decide),
   history_length_capped.2.1 [[sampleReading]] "s1" [normStamp sampleReading] (by decide),
   history_length_capped.2.2 (List.replicate 100 sampleReading) sampleReadingB (by decide)⟩

/-- Claim C2: the append of the first fetchData variant skips a reading
exactly when its (raw) timestamp equals the timestamp of the last entry
already stored for its sensor, and otherwise appends the normalized reading
(truncating to 100); non-consecutive duplicate timestamps are not
deduplicated — the batch A, B, A with equal timestamps on the outer pair
stores all three readings. -/
theorem append_dedup_adjacent :
    (∀ (d : SensorData) (r : SensorReading) (last : SensorReading),
        ((lookupSensor d r.sensor_id).getD []).getLast? = some last →
        last.timestamp = r.timestamp → appendReading d r = d)
    ∧ (∀ (d : SensorData) (r : SensorReading),
        (∀ last, ((lookupSensor d r.sensor_id).getD []).getLast? = some last →
          last.timestamp ≠ r.timestamp) →
        lookupSensor (appendReading d r) r.sensor_id =
          some (sliceLast 100 ((lookupSensor d r.sensor_id).getD [] ++ [normStamp r])))
    ∧ ((lookupSensor
          (appendBatch [] [mkReading "s1" tsA 20 400, mkReading "s1" tsB 21 400,
            mkReading "s1" tsA 20 400]) "s1").getD []).map
        (fun r => r.timestamp) = [tsA, tsB, tsA] := by
  refine ⟨?_, ?_, by decide⟩
  · intro d r last hlast heq
    unfold appendReading
    split
    · rename_i hnone
      rw [hlast] at hnone
      cases hnone
    · rename_i l hsome
      rw [hlast] at hsome
      cases hsome
      rw [if_pos heq]
  · intro d r hne
    unfold appendReading
    split
    · exact lookup_set_self _ _ _
    · rename_i l hsome
      rw [if_neg (hne l hsome)]
      exact lookup_set_self _ _ _

/-- Witness for C2: the duplicate poll echo is skipped; a fresh timestamp is
appended. -/
theorem append_dedup_adjacent_witness :
    appendReading [("s1", [sampleReading])] sampleReading = [("s1", [sampleReading])]
    ∧ lookupSensor (appendReading [("s1", [sampleReading])] sampleReadingB) "s1" =
        some (sliceLast 100
          ((lookupSensor [("s1", [sampleReading])] "s1").getD [] ++ [normStamp sampleReadingB])) :=
  ⟨append_dedup_adjacent.1 [("s1", [sampleReading])] sampleReading sampleReading
      (by decide) (by decide),
   append_dedup_adjacent.2.1 [("s1", [sampleReading])] sampleReadingB
      (by intro last hlast; cases (by decide :
            (lookupSensor [("s1", [sampleReading])] "s1").getD [] = [sampleReading]) ▸
          hlast; decide)⟩

/-- Claim C8: starting from the empty state, after any sequence of poll
appends every sensor id present in the history map holds a non-empty
sequence, so the renderer's last-element access is defined. -/
theorem history_nonempty (batches : List (List SensorReading)) (id : String)
    (rs : List SensorReading)
    (h : lookupSensor (batches.foldl appendBatch []) id = some rs) :
    rs.getLast?.isSome = true := by
  have hne : rs ≠ [] :=
    histInv_foldBatches (fun l => l ≠ [])
      (fun l x => sliceLast_append_ne_nil 100 (by omega) l x) batches id rs h
  exact List.getLast?_isSome.mpr hne

/-- Witness for C8 at a concrete run. -/
theorem history_nonempty_witness :
    ([normStamp sampleReading] : List SensorReading).getLast?.isSome = true :=
  history_nonempty [[sampleReading]] "s1" [normStamp sampleReading] (by decide)

theorem lookup_appendReading_ne (d : SensorData) (r : SensorReading) (id : String)
    (h : id ≠ r.sensor_id) :
    lookupSensor (appendReading d r) id = lookupSensor d id := by
  rcases appendReading_cases d r with hc | hc
  · rw [hc]
  · rw [hc, lookup_set_ne _ _ _ _ h]

/-- Claim C10: a batch append (either fetchData variant) leaves the stored
sequence of every sensor whose id does not occur in the batch unchanged. -/
theorem history_frame (d : SensorData) (batch : List SensorReading) (id : String)
    (h : id ∉ batch.map (fun r => r.sensor_id)) :
    lookupSensor (appendBatch d batch) id = lookupSensor d id
    ∧ lookupSensor (appendBatchV2 d batch) id = lookupSensor d id := by
  induction batch generalizing d with
  | nil => exact ⟨rfl, rfl⟩
  | cons r rest ih =>
      simp only [List.map_cons, List.mem_cons, not_or] at h
      obtain ⟨h1, h2⟩ := h
      have ih' := ih (appendReading d r) (by simpa using h2)
      have ihV2 := ih (appendReadingV2 d r) (by simpa using h2)
      constructor
      · show lookupSensor (appendBatch (appendReading d r) rest) id = lookupSensor d id
        rw [ih'.1, lookup_appendReading_ne d r id h1]
      · show lookupSensor (appendBatchV2 (appendReadingV2 d r) rest) id = lookupSensor d id
        rw [ihV2.2]
        unfold appendReadingV2
        rw [lookup_set_ne _ _ _ _ h1]

/-- Witness for C10: a batch for sensor s1 leaves sensor s2 untouched. -/
theorem history_frame_witness :
    lookupSensor (appendBatch [("s2", [sampleReading])] [sampleReading]) "s2" =
      lookupSensor [("s2", [sampleReading])] "s2"
    ∧ lookupSensor (appendBatchV2 [("s2", [sampleReading])] [sampleReading]) "s2" =
      lookupSensor [("s2", [sampleReading])] "s2" :=
  history_frame [("s2", [sampleReading])] [sampleReading] "s2" (by decide)

/-- Claim C9: duplicate detection compares the incoming raw timestamp string
against the stored normalized ISO string (normalization happens only when
storing), so a reading denoting the same instant as the stored last entry but
written without milliseconds is appended rather than skipped: polling the
same raw reading twice stores it twice, with identical normalized
timestamps. -/
theorem dedup_normalization_mismatch :
    isoNormalize tsARaw = tsA
    ∧ tsARaw ≠ tsA
    ∧ ((lookupSensor (appendBatch [] [mkReading "s1" tsARaw 20 400]) "s1").getD []).map
        (fun r => r.timestamp) = [tsA]
    ∧ ((lookupSensor
          (appendBatch (appendBatch [] [mkReading "s1" tsARaw 20 400])
            [mkReading "s1" tsARaw 20 400]) "s1").getD []).map
        (fun r => r.timestamp) = [tsA, tsA] :=
  ⟨by decide, by decide, by decide, by decide⟩

/- ### Poll cycle and error state (the Home component's state machine) -/

/-- The outcome of one poll cycle: a decoded batch on success, or the caught
error's human-readable message (`HTTP error! status: ...` or the decode
failure text) on a non-2xx response or decode error. -/
inductive PollResult where
  | success : List SensorReading → PollResult
  | failure : String → PollResult
deriving Repr, DecidableEq

/-- The Home component's state: `sensorData`, `loading`, `error`. -/
structure DashState where
  sensorData : SensorData
  loading : Bool
  error : Option String
deriving Repr, DecidableEq

/-- The `useState` initial values: empty record, loading true, error null. -/
def initialState : DashState := ⟨[], true, none⟩

/-- One `fetchData` cycle of the first variant (src/app/page.tsx lines
146-178): on success merge the batch into sensorData (the error state is not
touched); on failure set the error message; in both cases the `finally`
clause clears the loading flag. -/
def fetchData (s : DashState) : PollResult → DashState
  | .success batch =>
      { s with sensorData := appendBatch s.sensorData batch, loading := false }
  | .failure msg => { s with error := some msg, loading := false }

/-- What the component returns: the spinner while loading, the full-screen
error state when `error` is non-null, otherwise the data views
(src/app/page.tsx lines 180-202). -/
inductive View where
  | spinner
  | errorView : String → View
  | dashboard
deriving Repr, DecidableEq

def render (s : DashState) : View :=
  if s.loading then View.spinner
  else
    match s.error with
    | some m => View.errorView m
    | none => View.dashboard

theorem fetchData_preserves_error (s : DashState) (res : PollResult)
    (h : s.error.isSome = true) (hl : s.loading = false) :
    (fetchData s res).error.isSome = true ∧ (fetchData s res).loading = false := by
  cases res <;> simp [fetchData, h, hl]

theorem foldl_fetchData_error (rest : List PollResult) :
    ∀ s : DashState, s.error.isSome = true → s.loading = false →
      (rest.foldl fetchData s).error.isSome = true
      ∧ (rest.foldl fetchData s).loading = false := by
  induction rest with
  | nil => intro s h hl; exact ⟨h, hl⟩
  | cons res rest ih =>
      intro s h hl
      exact ih _ (fetchData_preserves_error s res h hl).1
        (fetchData_preserves_error s res h hl).2

/-- Claim C6: once a poll cycle fails, the error state holds the failure
message and stays non-null through every subsequent poll cycle — no
operation clears it (a successful cycle leaves `error` untouched) — and from
then on the component renders the full-screen error view instead of the data
views. -/
theorem error_sticky (s : DashState) (msg : String) (rest : List PollResult) :
    (rest.foldl fetchData (fetchData s (PollResult.failure msg))).error.isSome = true
    ∧ render (rest.foldl fetchData (fetchData s (PollResult.failure msg))) =
        View.errorView
          ((rest.foldl fetchData (fetchData s (PollResult.failure msg))).error.getD "")
    ∧ (∀ (t : DashState) (batch : List SensorReading),
        (fetchData t (PollResult.success batch)).error = t.error) := by
  have h0 : (fetchData s (PollResult.failure msg)).error.isSome = true := by
    simp [fetchData]
  have hl0 : (fetchData s (PollResult.failure msg)).loading = false := by
    simp [fetchData]
  obtain ⟨he, hl⟩ := foldl_fetchData_error rest _ h0 hl0
  refine ⟨he, ?_, fun t batch => rfl⟩
  cases hcase : (rest.foldl fetchData (fetchData s (PollResult.failure msg))).error with
  | none => rw [hcase] at he; cases he
  | some m => simp [render, hl, hcase]

/- ### Renderer sort order of sensor ids -/

/-- JS `parseInt` of the digit characters of a string, modelling
`parseInt(a.replace(/\D/g, ''))` — the empty digit string (parseInt's NaN)
is mapped to 0; no sensor id in the properties under test is digit-free. -/
def digitsToNat (cs : List Char) : Nat :=
  cs.foldl (fun n c => n * 10 + (c.toNat - 48)) 0

/-- The numeric suffix extracted from a sensor id:
`parseInt(id.replace(/\D/g, ''))`. -/
def extractNum (s : String) : Nat :=
  digitsToNat (s.toList.filter Char.isDigit)

/-- The sort `Object.keys(sensorData).sort((a, b) => parseInt(...) - parseInt(...))`
(src/app/page.tsx lines 198-200 and 497-499): a stable ascending sort by the
extracted numeric suffix, modelled by insertion sort (JS `Array.sort` is
stable). -/
def sortedSensorIds (ks : List String) : List String :=
  ks.insertionSort (fun a b => extractNum a ≤ extractNum b)

instance : IsTotal String (fun a b => extractNum a ≤ extractNum b) :=
  ⟨fun a b => Nat.le_total _ _⟩

instance : IsTrans String (fun a b => extractNum a ≤ extractNum b) :=
  ⟨fun _ _ _ hab hbc => Nat.le_trans hab hbc⟩

/-- Claim C7: rendering order is ascending by the numeric suffix of the
sensor id; in particular ["sensor2", "sensor10", "sensor1"] sorts to
["sensor1", "sensor2", "sensor10"]. -/
theorem sensor_sort_order :
    sortedSensorIds ["sensor2", "sensor10", "sensor1"] =
      ["sensor1", "sensor2", "sensor10"]
    ∧ ∀ ks : List String,
        (sortedSensorIds ks).Sorted (fun a b => extractNum a ≤ extractNum b)
        ∧ (sortedSensorIds ks).Perm ks := by
  refine ⟨by decide, fun ks => ⟨?_, ?_⟩⟩
  · exact List.sorted_insertionSort _ ks
  · exact List.perm_insertionSort _ ks

/- ### Warning Tracker — modelled from the spec (the richer variant carrying
it is not under src/; only the two warning-less variants are) -/

inductive WarningType where
  | temperature
  | co2
deriving Repr, DecidableEq

/-- Modelled from the spec: a derived Warning event — id (composite of breach
type, sensor id and generation timestamp), sensorId, human-readable message,
creation instant (epoch milliseconds), type, and the offending value. -/
structure Warning where
  id : String
  sensorId : String
  message : String
  timestamp : Int
  type : WarningType
  value : Rat
deriving Repr, DecidableEq

/-- Rounding `round(q * 10^k)` on the positive breach values, written over the
numerator and denominator so it evaluates by Int arithmetic:
`⌊(q * p) + 1/2⌋ = (2 * num * p + den) / (2 * den)` for positive inputs. -/
def scaledRound (q : Rat) (p : Int) : Int :=
  (2 * (q.num * p) + (q.den : Int)) / (2 * (q.den : Int))

/-- Modelled from the spec: a metric value "formatted to one decimal place"
(JS `toFixed(1)`), on the positive breach values. -/
def formatFixed1 (q : Rat) : String :=
  toString (scaledRound q 10 / 10) ++ "." ++ toString (scaledRound q 10 % 10)

/-- Modelled from the spec: a metric value "formatted to zero decimal places"
(JS `toFixed(0)`), on the positive breach values. -/
def formatFixed0 (q : Rat) : String :=
  toString (scaledRound q 1)

/-- Modelled from the spec: the Warning Tracker's evaluate, per reading —
temperature > 35.0 emits a temperature warning with the message formatted to
one decimal place; co2_level > 1000 emits a co2 warning with the message
formatted to zero decimal places; a reading may emit zero, one or both; all
warnings of one cycle share the generation timestamp `now`, which is part of
the id together with the breach type and the sensor id. -/
def evaluateReading (now : Int) (r : SensorReading) : List Warning :=
  (if r.temperature > 35 then
    [{ id := "temperature-" ++ r.sensor_id ++ "-" ++ toString now
       sensorId := r.sensor_id
       message := "High temperature alert: " ++ formatFixed1 r.temperature ++ "°C"
       timestamp := now
       type := WarningType.temperature
       value := r.temperature }]
   else [])
  ++ (if r.co2_level > 1000 then
    [{ id := "co2-" ++ r.sensor_id ++ "-" ++ toString now
       sensorId := r.sensor_id
       message := "High CO2 alert: " ++ formatFixed0 r.co2_level ++ " ppm"
       timestamp := now
       type := WarningType.co2
       value := r.co2_level }]
   else [])

/-- Modelled from the spec: evaluate over a whole poll batch. -/
def evaluate (now : Int) (batch : List SensorReading) : List Warning :=
  (batch.map (evaluateReading now)).flatten

/-- Modelled from the spec: the sweep — keep entries whose age (`now` minus
entry timestamp) is strictly less than the retention window of 3,600,000 ms,
then keep only the last 50 survivors (oldest excess discarded). -/
def sweep (now : Int) (feed : List Warning) : List Warning :=
  sliceLast 50 (feed.filter fun w => decide (now - w.timestamp < 3600000))

/-- Modelled from the spec: a poll-cycle mutation of the feed — merge the
cycle's new warnings into the existing feed, then sweep. -/
def pollSweep (now : Int) (feed : List Warning) (batch : List SensorReading) :
    List Warning :=
  sweep now (feed ++ evaluate now batch)

/-- Claim C3: the warning evaluation emits a temperature warning iff the
reading's temperature is strictly greater than 35.0; temperature 35.1 with no
co2 breach yields exactly one warning, of type temperature, with message
"High temperature alert: 35.1°C"; temperature 35.0 yields zero temperature
warnings. -/
theorem temperature_warning_iff :
    (∀ (now : Int) (r : SensorReading),
        ((evaluateReading now r).filter
            (fun w => w.type == WarningType.temperature)).length =
          if 35 < r.temperature then 1 else 0)
    ∧ ((evaluateReading 0 (mkReading "sensor1" tsA (mkRat 351 10) 400)).map
        fun w => (w.type, w.message)) =
        [(WarningType.temperature, "High temperature alert: 35.1°C")]
    ∧ (evaluateReading 0 (mkReading "sensor1" tsA 35 400)).filter
        (fun w => w.type == WarningType.temperature) = [] := by
  refine ⟨?_, by decide, by decide⟩
  intro now r
  by_cases h : (35 : Rat) < r.temperature
  · by_cases h2 : (1000 : Rat) < r.co2_level
    · simp [evaluateReading, h, h2, List.filter]
      try rfl
    · simp [evaluateReading, h, h2, List.filter]
      try rfl
  · by_cases h2 : (1000 : Rat) < r.co2_level
    · simp [evaluateReading, h, h2, List.filter]
      try rfl
    · simp [evaluateReading, h, h2, List.filter]
      try rfl

/-- Claim C4: every sweep first drops entries aged 3,600,000 ms or more, then
keeps only the most recent 50 survivors, so after every feed mutation the
feed has length at most 50 and every retained warning is strictly younger
than the retention window at the moment of the sweep. -/
theorem sweep_caps (now : Int) (feed : List Warning) (w : Warning)
    (batch : List SensorReading) :
    (sweep now feed).length ≤ 50
    ∧ (w ∈ sweep now feed → now - w.timestamp < 3600000)
    ∧ (pollSweep now feed batch).length ≤ 50
    ∧ (w ∈ pollSweep now feed batch → now - w.timestamp < 3600000) := by
  have hmem : ∀ (l : List Warning), w ∈ sweep now l → now - w.timestamp < 3600000 := by
    intro l hw
    have hw' : w ∈ l.filter fun x => decide (now - x.timestamp < 3600000) :=
      List.drop_subset _ _ hw
    have := (List.mem_filter.mp hw').2
    exact of_decide_eq_true this
  exact ⟨sliceLast_length_le 50 _, hmem feed, sliceLast_length_le 50 _, hmem _⟩

/-- A concrete warning used by witnesses. -/
def sampleWarning : Warning :=
  ⟨"temperature-s1-0", "s1", "High temperature alert: 36.0°C", 0,
    WarningType.temperature, 36⟩

/-- Witness for C4 at a concrete feed: the fresh warning survives the sweep
and satisfies the age bound. -/
theorem sweep_caps_witness :
    (sweep 0 [sampleWarning]).length ≤ 50
    ∧ ((0 : Int) - sampleWarning.timestamp < 3600000)
    ∧ (pollSweep 0 [sampleWarning] []).length ≤ 50
    ∧ ((0 : Int) - sampleWarning.timestamp < 3600000) :=
  ⟨(sweep_caps 0 [sampleWarning] sampleWarning []).1,
   (sweep_caps 0 [sampleWarning] sampleWarning []).2.1 (by decide),
   (sweep_caps 0 [sampleWarning] sampleWarning []).2.2.1,
   (sweep_caps 0 [sampleWarning] sampleWarning []).2.2.2 (by decide)⟩

/- ### Temperature classification — modelled from the spec (richer variant) -/

inductive TempBand where
  | red
  | amber
  | blue
  | green
deriving Repr, DecidableEq

/-- Modelled from the spec: the richer variant's four-band temperature
classification (its source is not under src/; the two variants present map
temperature with a coarser red/blue/green rule): value > 35 red, value > 25
amber, value < 18 blue, otherwise green, all comparisons strict. -/
def classifyTemperature (v : Rat) : TempBand :=
  if v > 35 then TempBand.red
  else if v > 25 then TempBand.amber
  else if v < 18 then TempBand.blue
  else TempBand.green

/-- Claim C5: the four bands of the temperature classification, with both
boundaries excluded from the higher band by the strict comparisons:
35.0 classifies amber, 25.0 classifies green. -/
theorem temperature_classification :
    (∀ v : Rat,
        (35 < v → classifyTemperature v = TempBand.red)
        ∧ (25 < v → v ≤ 35 → classifyTemperature v = TempBand.amber)
        ∧ (v < 18 → classifyTemperature v = TempBand.blue)
        ∧ (18 ≤ v → v ≤ 25 → classifyTemperature v = TempBand.green))
    ∧ classifyTemperature 35 = TempBand.amber
    ∧ classifyTemperature 25 = TempBand.green := by
  refine ⟨fun v => ⟨?_, ?_, ?_, ?_⟩, by decide, by decide⟩
  · intro h
    simp [classifyTemperature, h]
  · intro h1 h2
    simp only [classifyTemperature]
    rw [if_neg (not_lt.mpr h2), if_pos h1]
  · intro h
    simp only [classifyTemperature]
    rw [if_neg (not_lt.mpr (by linarith)), if_neg (not_lt.mpr (by linarith)), if_pos h]
  · intro h1 h2
    simp only [classifyTemperature]
    rw [if_neg (not_lt.mpr (by linarith)), if_neg (not_lt.mpr h2),
      if_neg (not_lt.mpr h1)]

/-- Witness for C5 at one value inside each band. -/
theorem temperature_classification_witness :
    classifyTemperature 36 = TempBand.red
    ∧ classifyTemperature 30 = TempBand.amber
    ∧ classifyTemperature 10 = TempBand.blue
    ∧ classifyTemperature 20 = TempBand.green :=
  ⟨(temperature_classification.1 36).1 (by decide),
   (temperature_classification.1 30).2.1 (by decide) (by decide),
   (temperature_classification.1 10).2.2.1 (by decide),
   (temperature_classification.1 20).2.2.2 (by decide) (by decide)⟩

end SensorDashboard
